import Mathlib

/-!
Verification of the core of `pv` (a Rust progress-pipe utility, `src/main.rs`):
the transfer engine `PipeView::pipeview` and the display template builder
`PipeView::progress_from_options`, shallowly embedded in Lean.

Bytes are modelled as `Nat` (values of Rust `u8`), counters as `Nat`
(Rust `u64`; the loop only ever adds small chunk counts, no overflow
behaviour is relied upon by any claim).  The source and sink streams of
`pipeview` are modelled as explicit event lists:

* the source is a list of read events — each `read` call consumes the next
  event, yielding either a successful chunk of bytes, a transient
  interruption (`ErrorKind::Interrupted`), or a non-transient read error;
  an exhausted list behaves like `Ok(0)` (end of input), matching the Rust
  reader contract that a zero-length read signals EOF;
* the sink is a list of write outcomes (`true` = `write_all` succeeded,
  `false` = it returned an error); an exhausted list means writes succeed.

The template builder is pure in the source; its observable output
(the template string handed to `ProgressStyle::template`, plus which of
`default_bar`/`default_spinner` and `ProgressBar::new`/`new_spinner` were
chosen) is captured in the `RenderSpec` structure.
-/

/-- Rust enum `LineMode`: count occurrences of a delimiter byte, or count bytes. -/
inductive LineMode where
  | line (delim : Nat)
  | byte
deriving DecidableEq, Repr

/-- Configuration of one `PipeView` run (the fields of the Rust struct that
the transfer loop reads; the I/O handles and the progress bar are passed
separately as explicit event lists / accumulated state). -/
structure PipeView where
  line_mode : LineMode
  skip_input_errors : Bool
  skip_output_errors : Bool
deriving DecidableEq, Repr

/-- One result of calling `self.source.read(&mut buf)`:
a chunk of bytes read (possibly empty, meaning EOF), a transient
interruption, or any other read error. -/
inductive ReadEvent where
  | chunk (data : List Nat)
  | interrupted
  | readError
deriving DecidableEq, Repr

/-- Which I/O direction produced the fatal error returned from the loop. -/
inductive FatalKind where
  | readError
  | writeError
deriving DecidableEq, Repr

/-- Observable state accumulated by the transfer loop:
`written` is the Rust local `written` (the value returned on clean EOF),
`progress` is the sum of all `self.progress.inc(..)` amounts, and
`output` is the concatenation of all chunks successfully written to the sink. -/
structure RunState where
  written : Nat
  progress : Nat
  output : List Nat
deriving DecidableEq, Repr

/-- Initial run state: nothing transferred yet. -/
def initState : RunState := { written := 0, progress := 0, output := [] }

/-- The amount passed to `self.progress.inc` for a successfully read chunk
(`main.rs` lines 162-165): the count of delimiter occurrences in the chunk
in line mode, the chunk length in byte mode. -/
def incAmount (lm : LineMode) (data : List Nat) : Nat :=
  match lm with
  | LineMode.line delim => (data.filter (fun b => b == delim)).length
  | LineMode.byte => data.length

/-- The transfer loop `PipeView::pipeview` (`main.rs` lines 141-168), one
iteration per source event.  `ws` is the remaining list of write outcomes.
Mirrors the Rust control flow exactly:
`Ok(0)` returns `Ok(written)`; `Interrupted` continues; another read error
continues when `skip_input_errors` else returns the error; a failed
`write_all` continues (skipping the `inc` and the `written +=`) when
`skip_output_errors` else returns the error; after a successful write the
progress is advanced by `incAmount` and `written` grows by the chunk length. -/
def pipeview (cfg : PipeView) : List ReadEvent → List Bool → RunState →
    Except FatalKind Nat × RunState
  | [], _, st => (Except.ok st.written, st)
  | ReadEvent.chunk data :: rest, ws, st =>
    if data.length = 0 then (Except.ok st.written, st)
    else if ws.headD true then
      pipeview cfg rest ws.tail
        { written := st.written + data.length,
          progress := st.progress + incAmount cfg.line_mode data,
          output := st.output ++ data }
    else if cfg.skip_output_errors then
      pipeview cfg rest ws.tail st
    else
      (Except.error FatalKind.writeError, st)
  | ReadEvent.interrupted :: rest, ws, st => pipeview cfg rest ws st
  | ReadEvent.readError :: rest, ws, st =>
    if cfg.skip_input_errors then pipeview cfg rest ws st
    else (Except.error FatalKind.readError, st)

/-- Which of `ProgressStyle::default_bar` / `default_spinner` the builder chose. -/
inductive StyleKind where
  | bar
  | spinner
deriving DecidableEq, Repr

/-- Which of `ProgressBar::new(len)` / `ProgressBar::new_spinner()` the builder chose. -/
inductive CounterKind where
  | bounded (total : Nat)
  | spinner
deriving DecidableEq, Repr

/-- Observable output of `PipeView::progress_from_options`: the template
string fed to the style, the style constructor used, and the progress-bar
constructor used. -/
structure RenderSpec where
  templateString : String
  styleKind : StyleKind
  counter : CounterKind
deriving DecidableEq, Repr

/-- Whether the render spec is in bounded (bar-with-total) mode. -/
def RenderSpec.isBounded (r : RenderSpec) : Bool :=
  match r.counter with
  | CounterKind.bounded _ => true
  | CounterKind.spinner => false

/-- The template builder `PipeView::progress_from_options`
(`main.rs` lines 74-139), argument for argument:
`len` = estimated size, `show_timer`, `width`, `show_bytes`, `show_eta`,
`show_rate`, `line_mode`.  Builds the segment list in source order
(timer, bar/percent, transferred amount, rate, ETA), picks the placeholder
name triple from `line_mode`, and falls back to the fixed maximal default
template when no show flag is set. -/
def progress_from_options (len : Option Nat) (show_timer : Bool)
    (width : Option Nat) (show_bytes : Bool) (show_eta : Bool)
    (show_rate : Bool) (line_mode : Bool) : RenderSpec :=
  let template0 : List String :=
    if show_timer then ["\x7belapsed_precise\x7d"] else []
  let template1 : List String := template0 ++
    [match width with
     | some x => "\x7bbar:" ++ toString x ++ "\x7d \x7bpercent\x7d"
     | none => "\x7bwide_bar\x7d \x7bpercent\x7d"]
  let pos_name : String := if line_mode then "\x7bpos\x7d" else "\x7bbytes\x7d"
  let len_name : String := if line_mode then "\x7blen\x7d" else "\x7btotal_bytes\x7d"
  let per_sec_name : String :=
    if line_mode then "\x7bper_sec\x7d" else "\x7bbytes_per_sec\x7d"
  let template2 : List String :=
    if show_bytes && len.isSome then template1 ++ [pos_name ++ "/" ++ len_name]
    else if show_bytes then template1 ++ [pos_name]
    else template1
  let template3 : List String :=
    if show_rate then template2 ++ [per_sec_name] else template2
  let template4 : List String :=
    if show_eta then template3 ++ ["\x7beta_precise\x7d"] else template3
  let styleKind : StyleKind :=
    match len with
    | some _ => StyleKind.bar
    | none => StyleKind.spinner
  let templateString : String :=
    if !(show_timer || show_bytes || show_rate || show_eta) then
      "\x7belapsed\x7d \x7bwide_bar\x7d \x7bpercent\x7d " ++ pos_name ++ "/" ++
        len_name ++ " " ++ per_sec_name ++ " \x7beta\x7d"
    else
      String.intercalate " " template4
  let counter : CounterKind :=
    match len with
    | some x => CounterKind.bounded x
    | none => CounterKind.spinner
  { templateString := templateString, styleKind := styleKind, counter := counter }

deriving instance DecidableEq for Except

/-- `startsWith needle hay`: the first list is an initial segment of the second. -/
def startsWith : List Char → List Char → Bool
  | [], _ => true
  | _ :: _, [] => false
  | a :: as, b :: bs => a == b && startsWith as bs

/-- `containsSeg needle hay`: the first list occurs contiguously inside the second. -/
def containsSeg (needle : List Char) : List Char → Bool
  | [] => needle.isEmpty
  | b :: bs => startsWith needle (b :: bs) || containsSeg needle bs

/-- Whether the template string `t` mentions the placeholder named `nm`,
i.e. contains the text `\x7b` ++ `nm` ++ `\x7d`. -/
def hasPlaceholder (t : String) (nm : String) : Bool :=
  containsSeg ("\x7b" ++ nm ++ "\x7d").data t.data

/-- The fixed maximal default template of `progress_from_options`
(`main.rs` lines 123-127), parameterised by `line_mode` only: elapsed time,
space-filling bar, percent, position/total, rate, ETA. -/
def default_template (line_mode : Bool) : String :=
  "\x7belapsed\x7d \x7bwide_bar\x7d \x7bpercent\x7d " ++
    (if line_mode then "\x7bpos\x7d" else "\x7bbytes\x7d") ++ "/" ++
    (if line_mode then "\x7blen\x7d" else "\x7btotal_bytes\x7d") ++ " " ++
    (if line_mode then "\x7bper_sec\x7d" else "\x7bbytes_per_sec\x7d") ++
    " \x7beta\x7d"

/-- Spec-side segment list, written from the spec's words (section 4.1,
step 2): append only the segments whose governing preference is true, in
the fixed left-to-right order elapsed timer, bar/spinner-with-percent
(width-qualified when `width` is present, else the space-filling variant),
position/total (combined only when both the preference and `estimatedTotal`
are present, else position alone), rate, ETA.  Used to state that the code's
template agrees with this description whenever at least one preference is
set (outside that case the code's default override fires instead). -/
def specSegments (len : Option Nat) (show_timer : Bool) (width : Option Nat)
    (show_bytes : Bool) (show_eta : Bool) (show_rate : Bool)
    (line_mode : Bool) : List String :=
  (if show_timer then ["\x7belapsed_precise\x7d"] else []) ++
  [match width with
   | some x => "\x7bbar:" ++ toString x ++ "\x7d \x7bpercent\x7d"
   | none => "\x7bwide_bar\x7d \x7bpercent\x7d"] ++
  (if show_bytes then
     [if len.isSome then
        (if line_mode then "\x7bpos\x7d" else "\x7bbytes\x7d") ++ "/" ++
          (if line_mode then "\x7blen\x7d" else "\x7btotal_bytes\x7d")
      else (if line_mode then "\x7bpos\x7d" else "\x7bbytes\x7d")]
   else []) ++
  (if show_rate then
     [if line_mode then "\x7bper_sec\x7d" else "\x7bbytes_per_sec\x7d"]
   else []) ++
  (if show_eta then ["\x7beta_precise\x7d"] else [])

/-- The template of `progress_from_options` with the placeholder name
triple (position, total, rate-per-second) abstracted out: the body is the
builder's template computation verbatim, except that the three names are
parameters instead of being selected from `line_mode`.  Both the line-mode
and the byte-mode template are instances of this one function, which is
what "switching `line_mode` changes only the placeholder identifiers, not
the segment selection" means. -/
def templateFromNames (pos_name len_name per_sec_name : String)
    (len : Option Nat) (show_timer : Bool) (width : Option Nat)
    (show_bytes : Bool) (show_eta : Bool) (show_rate : Bool) : String :=
  let template0 : List String :=
    if show_timer then ["\x7belapsed_precise\x7d"] else []
  let template1 : List String := template0 ++
    [match width with
     | some x => "\x7bbar:" ++ toString x ++ "\x7d \x7bpercent\x7d"
     | none => "\x7bwide_bar\x7d \x7bpercent\x7d"]
  let template2 : List String :=
    if show_bytes && len.isSome then template1 ++ [pos_name ++ "/" ++ len_name]
    else if show_bytes then template1 ++ [pos_name]
    else template1
  let template3 : List String :=
    if show_rate then template2 ++ [per_sec_name] else template2
  let template4 : List String :=
    if show_eta then template3 ++ ["\x7beta_precise\x7d"] else template3
  if !(show_timer || show_bytes || show_rate || show_eta) then
    "\x7belapsed\x7d \x7bwide_bar\x7d \x7bpercent\x7d " ++ pos_name ++ "/" ++
      len_name ++ " " ++ per_sec_name ++ " \x7beta\x7d"
  else
    String.intercalate " " template4

/-- An error-free run over nonempty chunks with an exhausted (all-successful)
write plan: every chunk is written, `written` grows by every chunk length,
and the progress advances by `incAmount` of every chunk. -/
theorem pipeview_chunks (cfg : PipeView) (chunks : List (List Nat))
    (h : ∀ c ∈ chunks, c ≠ []) (st : RunState) :
    pipeview cfg (chunks.map ReadEvent.chunk) [] st =
      (Except.ok (st.written + (chunks.map List.length).sum),
       { written := st.written + (chunks.map List.length).sum,
         progress := st.progress + (chunks.map (incAmount cfg.line_mode)).sum,
         output := st.output ++ chunks.flatten }) := by
  induction chunks generalizing st with
  | nil => simp [pipeview]
  | cons c cs ih =>
    have hc : ¬ c.length = 0 := by
      have := h c (List.mem_cons_self c cs)
      simpa [List.length_eq_zero] using this
    have ihcs := ih (fun x hx => h x (List.mem_cons_of_mem c hx))
    simp [pipeview, hc, ihcs, Nat.add_assoc, List.append_assoc]

/-- In line mode, the total progress advanced over a clean run is the
number of delimiter occurrences in the concatenated stream. -/
theorem sum_incAmount_line (d : Nat) (chunks : List (List Nat)) :
    (chunks.map (incAmount (LineMode.line d))).sum =
      (chunks.flatten.filter (fun b => b == d)).length := by
  induction chunks with
  | nil => simp
  | cons c cs ih => simp [incAmount, List.filter_append, ih]

/-- In byte mode, the total progress advanced equals the total byte count. -/
theorem sum_incAmount_byte (chunks : List (List Nat)) :
    (chunks.map (incAmount LineMode.byte)).sum = (chunks.map List.length).sum := by
  induction chunks with
  | nil => rfl
  | cons c cs ih => simp [incAmount, ih]

/-- C1 counterexample: on the 6-byte input "a\nb\nc\n" in line mode with
newline delimiter, `pipeview` returns `Ok 6` (the byte count), and the
delimiter count of the stream is 3, so the returned total is not the
delimiter count as the claim states. -/
theorem claim_C1_counterexample :
    (pipeview { line_mode := LineMode.line 10, skip_input_errors := false,
                skip_output_errors := false }
      [ReadEvent.chunk [97, 10, 98, 10, 99, 10]] [] initState).fst =
      Except.ok 6 ∧
    (([97, 10, 98, 10, 99, 10] : List Nat).filter (fun b => b == 10)).length = 3 ∧
    (Except.ok 6 : Except FatalKind Nat) ≠ Except.ok 3 := by
  decide

/-- Claim C1 (amended): for every error-free input stream read with line
accounting (delimiter byte `d`), the value returned by `pipeview` at clean
end-of-input equals the stream's byte count, while the progress counter is
advanced by the number of occurrences of `d` in the stream; in particular,
for the 6-byte input "a\nb\nc\n" with newline delimiter, the returned total
is 6 and the progress advanced is 3. -/
theorem claim_C1 (d : Nat) (b1 b2 : Bool) (chunks : List (List Nat))
    (h : ∀ c ∈ chunks, c ≠ []) :
    pipeview { line_mode := LineMode.line d, skip_input_errors := b1,
               skip_output_errors := b2 }
      (chunks.map ReadEvent.chunk) [] initState =
      (Except.ok chunks.flatten.length,
       { written := chunks.flatten.length,
         progress := (chunks.flatten.filter (fun b => b == d)).length,
         output := chunks.flatten }) := by
  have hrun := pipeview_chunks
    { line_mode := LineMode.line d, skip_input_errors := b1,
      skip_output_errors := b2 } chunks h initState
  simpa [initState, sum_incAmount_line, List.length_flatten] using hrun

/-- Witness for C1 (amended) at the spec's concrete scenario. -/
theorem claim_C1_witness :
    (∀ c ∈ [[97, 10, 98, 10, 99, 10]], c ≠ ([] : List Nat)) ∧
    pipeview { line_mode := LineMode.line 10, skip_input_errors := false,
               skip_output_errors := false }
      ([[97, 10, 98, 10, 99, 10]].map ReadEvent.chunk) [] initState =
      (Except.ok 6,
       { written := 6, progress := 3, output := [97, 10, 98, 10, 99, 10] }) :=
  ⟨by decide,
   (claim_C1 10 false false [[97, 10, 98, 10, 99, 10]] (by decide)).trans
     (by decide)⟩

/-- C2 counterexample: with `skip_output_errors` set, a write error on a
3-byte chunk leaves the loop running but returns total 0, not 3 — the
chunk's size is not counted toward the returned total nor toward the
progress, contrary to the claim. -/
theorem claim_C2_counterexample :
    pipeview { line_mode := LineMode.byte, skip_input_errors := false,
               skip_output_errors := true }
      [ReadEvent.chunk [1, 2, 3]] [false] initState =
      (Except.ok 0, initState) ∧
    (0 : Nat) ≠ 3 := by
  decide

/-- Claim C2 (amended): with `skip_output_errors` set, a write error on a
chunk does not terminate the loop, but that chunk's size is NOT counted
toward the returned total or the progress advancement (the `continue`
skips the accounting; only the data is lost); with the flag unset, the
same write error terminates the loop as a fatal write error. -/
theorem claim_C2 (cfg : PipeView) (c : List Nat) (rest : List ReadEvent)
    (ws : List Bool) (st : RunState) (hc : c ≠ []) :
    (cfg.skip_output_errors = true →
      pipeview cfg (ReadEvent.chunk c :: rest) (false :: ws) st =
        pipeview cfg rest ws st) ∧
    (cfg.skip_output_errors = false →
      pipeview cfg (ReadEvent.chunk c :: rest) (false :: ws) st =
        (Except.error FatalKind.writeError, st)) := by
  have hlen : ¬ c.length = 0 := by simpa [List.length_eq_zero] using hc
  constructor <;> intro hskip <;> simp [pipeview, hlen, hskip]

/-- Witness for C2 (amended): both flag settings at a concrete run. -/
theorem claim_C2_witness :
    pipeview { line_mode := LineMode.byte, skip_input_errors := false,
               skip_output_errors := true }
      [ReadEvent.chunk [1, 2, 3]] [false] initState =
      pipeview { line_mode := LineMode.byte, skip_input_errors := false,
                 skip_output_errors := true } [] [] initState ∧
    pipeview { line_mode := LineMode.byte, skip_input_errors := false,
               skip_output_errors := false }
      [ReadEvent.chunk [1, 2, 3]] [false] initState =
      (Except.error FatalKind.writeError, initState) :=
  ⟨(claim_C2 _ [1, 2, 3] [] [] initState (by decide)).1 rfl,
   (claim_C2 _ [1, 2, 3] [] [] initState (by decide)).2 rfl⟩

/-- Claim C3: for every error-free input stream of size S transferred with
byte accounting, `pipeview` writes to the sink exactly the bytes read from
the source, unchanged and in order, and returns total S at clean
end-of-input (exhausted source = zero-length read). -/
theorem claim_C3 (b1 b2 : Bool) (chunks : List (List Nat))
    (h : ∀ c ∈ chunks, c ≠ []) :
    pipeview { line_mode := LineMode.byte, skip_input_errors := b1,
               skip_output_errors := b2 }
      (chunks.map ReadEvent.chunk) [] initState =
      (Except.ok chunks.flatten.length,
       { written := chunks.flatten.length,
         progress := chunks.flatten.length,
         output := chunks.flatten }) := by
  have hrun := pipeview_chunks
    { line_mode := LineMode.byte, skip_input_errors := b1,
      skip_output_errors := b2 } chunks h initState
  simpa [initState, sum_incAmount_byte, List.length_flatten] using hrun

/-- Witness for C3: a 10-byte input yields the same 10 bytes on the sink
and a returned total of 10. -/
theorem claim_C3_witness :
    (∀ c ∈ [[0, 1, 2, 3, 4, 5, 6, 7, 8, 9]], c ≠ ([] : List Nat)) ∧
    pipeview { line_mode := LineMode.byte, skip_input_errors := false,
               skip_output_errors := false }
      ([[0, 1, 2, 3, 4, 5, 6, 7, 8, 9]].map ReadEvent.chunk) [] initState =
      (Except.ok 10,
       { written := 10, progress := 10,
         output := [0, 1, 2, 3, 4, 5, 6, 7, 8, 9] }) :=
  ⟨by decide,
   (claim_C3 false false [[0, 1, 2, 3, 4, 5, 6, 7, 8, 9]] (by decide)).trans
     (by decide)⟩

/-- Claim C4: with `skip_input_errors` set, a non-transient read error
mid-stream does not terminate the loop, is not counted as transferred
units, and causes no write for that iteration (the run continues with the
state and write plan untouched); with the flag unset, the same read error
terminates the loop as a fatal read error. -/
theorem claim_C4 (cfg : PipeView) (rest : List ReadEvent) (ws : List Bool)
    (st : RunState) :
    (cfg.skip_input_errors = true →
      pipeview cfg (ReadEvent.readError :: rest) ws st =
        pipeview cfg rest ws st) ∧
    (cfg.skip_input_errors = false →
      pipeview cfg (ReadEvent.readError :: rest) ws st =
        (Except.error FatalKind.readError, st)) := by
  constructor <;> intro hskip <;> simp [pipeview, hskip]

/-- Witness for C4: both flag settings at a concrete run. -/
theorem claim_C4_witness :
    pipeview { line_mode := LineMode.byte, skip_input_errors := true,
               skip_output_errors := false }
      [ReadEvent.readError] [] initState =
      pipeview { line_mode := LineMode.byte, skip_input_errors := true,
                 skip_output_errors := false } [] [] initState ∧
    pipeview { line_mode := LineMode.byte, skip_input_errors := false,
               skip_output_errors := false }
      [ReadEvent.readError] [] initState =
      (Except.error FatalKind.readError, initState) :=
  ⟨(claim_C4 _ [] [] initState).1 rfl, (claim_C4 _ [] [] initState).2 rfl⟩

/-- Claim C5: a transient read interruption is always retried silently,
whatever the configuration: injecting an interruption event at any point
of any run leaves the entire result (returned value, final total, progress
and sink output) unchanged. -/
theorem claim_C5 (cfg : PipeView) (es1 es2 : List ReadEvent)
    (ws : List Bool) (st : RunState) :
    pipeview cfg (es1 ++ ReadEvent.interrupted :: es2) ws st =
      pipeview cfg (es1 ++ es2) ws st := by
  induction es1 generalizing ws st with
  | nil => simp [pipeview]
  | cons e es1 ih =>
    cases e with
    | chunk data =>
      by_cases h0 : data.length = 0
      · simp [pipeview, h0]
      · simp [pipeview, h0, ih]
    | interrupted =>
      simpa [pipeview] using ih ws st
    | readError =>
      by_cases hs : cfg.skip_input_errors
      · simp [pipeview, hs, ih]
      · simp [pipeview, hs]

/-- Claim C6: when none of the four show flags is set, whatever
`estimatedTotal` (`len`), `width` and `line_mode` are, the builder discards
the segment list and produces the fixed maximal default template — elapsed
time, the space-filling bar, percent, position/total, rate and ETA — which
is never empty. -/
theorem claim_C6 (len : Option Nat) (width : Option Nat) (lm : Bool) :
    (progress_from_options len false width false false false lm).templateString =
      default_template lm ∧
    default_template lm ≠ "" ∧
    hasPlaceholder (default_template lm) "elapsed" = true ∧
    hasPlaceholder (default_template lm) "wide_bar" = true ∧
    hasPlaceholder (default_template lm) "percent" = true ∧
    hasPlaceholder (default_template lm) (if lm then "pos" else "bytes") = true ∧
    hasPlaceholder (default_template lm) (if lm then "len" else "total_bytes") = true ∧
    hasPlaceholder (default_template lm)
      (if lm then "per_sec" else "bytes_per_sec") = true ∧
    hasPlaceholder (default_template lm) "eta" = true := by
  cases lm <;>
    exact ⟨rfl, by decide, by decide, by decide, by decide, by decide,
           by decide, by decide, by decide⟩

/-- Claim C7: whenever at least one of the four show preferences is set,
the produced template is exactly the space-separated list of the segments
whose governing preferences are true, in the fixed left-to-right order
elapsed, bar, amount, rate, ETA (the bar/percent segment is always
present), all others omitted. -/
theorem claim_C7 (len : Option Nat) (st : Bool) (w : Option Nat)
    (sb se sr lm : Bool) (h : (st || sb || sr || se) = true) :
    (progress_from_options len st w sb se sr lm).templateString =
      String.intercalate " " (specSegments len st w sb se sr lm) := by
  cases st <;> cases sb <;> cases sr <;> cases se <;>
    first
      | exact absurd h (by decide)
      | (cases len <;> cases w <;> cases lm <;> rfl)

/-- Witness for C7 at the spec's scenario: `estimatedTotal = some 100`,
`show_eta = true`, everything else false — the template holds the
bar-with-percent segment and the ETA segment only, and the spec is in
bounded mode. -/
theorem claim_C7_witness :
    (false || false || false || true) = true ∧
    (progress_from_options (some 100) false none false true false
        false).templateString =
      String.intercalate " "
        (specSegments (some 100) false none false true false false) ∧
    (progress_from_options (some 100) false none false true false
        false).templateString =
      "\x7bwide_bar\x7d \x7bpercent\x7d \x7beta_precise\x7d" ∧
    (progress_from_options (some 100) false none false true false
        false).isBounded = true :=
  ⟨rfl, claim_C7 (some 100) false none false true false false rfl, rfl, rfl⟩

/-- Claim C8: the builder's output is bounded iff `estimatedTotal` is
present, independent of every other field — the bar style and the
length-bounded counter (carrying the estimated total) are chosen exactly
when `len` is `some`, the spinner style and spinner counter when it is
`none`. -/
theorem claim_C8 (len : Option Nat) (st : Bool) (w : Option Nat)
    (sb se sr lm : Bool) :
    ((progress_from_options len st w sb se sr lm).isBounded = len.isSome) ∧
    ((progress_from_options len st w sb se sr lm).styleKind = StyleKind.bar ↔
      len.isSome = true) ∧
    ((progress_from_options len st w sb se sr lm).counter =
        CounterKind.bounded (len.getD 0) ↔ len.isSome = true) ∧
    ((progress_from_options len st w sb se sr lm).counter =
        CounterKind.spinner ↔ len = none) := by
  cases len <;> simp [progress_from_options, RenderSpec.isBounded]

/-- C9 counterexample: with `estimatedTotal = none`, `show_eta = true` and
all else false, the byte-mode template and the line-mode template both
mention the placeholder name `percent` — byte-mode and line-mode templates
do share placeholder names, contrary to the claim's first part. -/
theorem claim_C9_counterexample :
    hasPlaceholder (progress_from_options none false none false true false
        false).templateString "percent" = true ∧
    hasPlaceholder (progress_from_options none false none false true false
        true).templateString "percent" = true := by
  decide

/-- Claim C9 (amended): the position/total/rate placeholder name triples of
the two modes are disjoint (line mode uses `pos`, `len`, `per_sec`; byte
mode uses `bytes`, `total_bytes`, `bytes_per_sec`), and switching
`line_mode` while holding all other preferences fixed changes only which of
the two triples is substituted into one common names-parameterised
template, never the segment selection (shared fixed placeholders such as
`percent` do remain in both). -/
theorem claim_C9 (len : Option Nat) (st : Bool) (w : Option Nat)
    (sb se sr : Bool) :
    (progress_from_options len st w sb se sr true).templateString =
      templateFromNames "\x7bpos\x7d" "\x7blen\x7d" "\x7bper_sec\x7d"
        len st w sb se sr ∧
    (progress_from_options len st w sb se sr false).templateString =
      templateFromNames "\x7bbytes\x7d" "\x7btotal_bytes\x7d"
        "\x7bbytes_per_sec\x7d" len st w sb se sr ∧
    (["\x7bpos\x7d", "\x7blen\x7d", "\x7bper_sec\x7d"].all
      (fun n => !(["\x7bbytes\x7d", "\x7btotal_bytes\x7d",
        "\x7bbytes_per_sec\x7d"].contains n))) = true :=
  ⟨rfl, rfl, by decide⟩

/-- Claim C10: when the default-template override fires (no show flag set),
the width preference is ignored — the template equals the width-absent one
and uses the space-filling `wide_bar` placeholder — although in a
non-default template (here: with the timer shown) the same width qualifies
the bar segment as `bar:w`. -/
theorem claim_C10 (len : Option Nat) (w : Nat) (lm : Bool) :
    (progress_from_options len false (some w) false false false
        lm).templateString =
      (progress_from_options len false none false false false
        lm).templateString ∧
    hasPlaceholder (progress_from_options len false (some w) false false
        false lm).templateString "wide_bar" = true ∧
    (progress_from_options len true (some w) false false false
        lm).templateString =
      String.intercalate " " ["\x7belapsed_precise\x7d",
        "\x7bbar:" ++ toString w ++ "\x7d \x7bpercent\x7d"] := by
  cases lm <;> refine ⟨rfl, ?_, rfl⟩
  · show hasPlaceholder (default_template false) "wide_bar" = true
    decide
  · show hasPlaceholder (default_template true) "wide_bar" = true
    decide
